import Mathlib

/-
  Shallow embedding of src/index.js (OpenAI-API-Explorer-backend).

  JavaScript numbers are modelled as Option ℚ: `some q` is an ordinary
  (exact) number, `none` stands for NaN, the value produced by arithmetic
  on `undefined` (e.g. `undefined / 1000`).  All arithmetic the source
  performs on possibly-undefined values is modelled by the js* helpers,
  which propagate `none` the way JS propagates NaN.
-/

namespace OpenAIBackend

/- `x / y` where `x` may be undefined/NaN: `undefined / 1000` is NaN. -/
def jsDiv (x : Option ℚ) (y : ℚ) : Option ℚ :=
  x.map (fun a => a / y)

/- `x * y` where `x` may be NaN: `NaN * r = NaN` for every `r`, including 0. -/
def jsMul (x : Option ℚ) (y : ℚ) : Option ℚ :=
  x.map (fun a => a * y)

/- `x + y` where either side may be NaN. -/
def jsAdd (x y : Option ℚ) : Option ℚ :=
  match x, y with
  | some a, some b => some (a + b)
  | _, _ => none

/- `x || 0` on a possibly-undefined number: undefined and 0 are falsy. -/
def jsOrZero (x : Option ℚ) : ℚ :=
  match x with
  | none => 0
  | some v => if v = 0 then 0 else v

/- `x < 0` in JS where `x` may be undefined: `undefined < 0` is false. -/
def jsLtZero (x : Option ℚ) : Bool :=
  match x with
  | none => false
  | some b => decide (b < 0)

/- One entry of the `modelPrice` table in src/index.js (lines 165-188). -/
structure PriceEntry where
  input : ℚ
  c_input : Option ℚ
  output : ℚ
deriving DecidableEq

/- The `modelPrice` table of src/index.js, as a lookup returning the entry
   when the model name is a key and `none` (undefined) otherwise. -/
def modelPrice (m : String) : Option PriceEntry :=
  if m = "gpt-4" then
    some { input := 0.03, c_input := none, output := 0.06 }
  else if m = "gpt-4o" then
    some { input := 0.00250, c_input := some 0.00125, output := 0.01000 }
  else if m = "gpt-4o-mini" then
    some { input := 0.000150, c_input := some 0.075, output := 0.0006 }
  else if m = "gpt-4-turbo" then
    some { input := 0.01, c_input := none, output := 0.03 }
  else if m = "gpt-3.5-turbo" then
    some { input := 0.0015, c_input := none, output := 0.002 }
  else
    none

/- The `usage` block of a completion response; either token count may be
   absent (undefined). -/
structure Usage where
  prompt_tokens : Option ℚ
  completion_tokens : Option ℚ
deriving DecidableEq

/- A parsed upstream completion response: `model` and `usage` may each be
   absent; all other fields are opaque pass-through data that the pipeline
   never inspects, so they are not modelled. -/
structure CompletionResponse where
  model : Option String
  usage : Option Usage
deriving DecidableEq

/- `getTransactionPrice` of src/index.js lines 157-163:
     const inputPrice = modelPrice[response?.model]?.input || 0;
     const outputPrice = modelPrice[response?.model]?.output || 0;
     const promptPrice = (response?.usage?.prompt_tokens / 1000) * inputPrice;
     const completionPrice = (response?.usage?.completion_tokens / 1000) * outputPrice;
     return promptPrice + completionPrice + 0.00000213;
   A `none` result is JS NaN. -/
def getTransactionPrice (response : CompletionResponse) : Option ℚ :=
  let inputPrice : ℚ :=
    jsOrZero ((response.model.bind modelPrice).map PriceEntry.input)
  let outputPrice : ℚ :=
    jsOrZero ((response.model.bind modelPrice).map PriceEntry.output)
  let promptPrice :=
    jsMul (jsDiv (response.usage.bind Usage.prompt_tokens) 1000) inputPrice
  let completionPrice :=
    jsMul (jsDiv (response.usage.bind Usage.completion_tokens) 1000) outputPrice
  jsAdd (jsAdd promptPrice completionPrice) (some 0.00000213)

/- The per-1000-token input rate the claims speak about: looked up in the
   pricing table, 0 for a model name absent from it (or no model name). -/
def inputRate (m : Option String) : ℚ :=
  match m.bind modelPrice with
  | none => 0
  | some e => e.input

/- The per-1000-token output rate, 0 for an unknown model name. -/
def outputRate (m : Option String) : ℚ :=
  match m.bind modelPrice with
  | none => 0
  | some e => e.output

/- Result of `client.getTokenInfo`: the fields the handler reads. -/
structure TokenInfo where
  aud : String
  email : String
deriving DecidableEq

/- One item of the UserAccountData table; the Balance attribute may be
   absent (undefined when read in JS). -/
structure AccountItem where
  Balance : Option ℚ
deriving DecidableEq

/- Result of `dynamoDB.get`: `Item` is absent when the key has no record. -/
structure DBGetResult where
  Item : Option AccountItem
deriving DecidableEq

/- The `transaction` object built in the handler (src/index.js lines 34-40). -/
structure TransactionRec where
  userId : String
  model : Option String
  reqTokens : Option ℚ
  resTokens : Option ℚ
  duration : ℚ
deriving DecidableEq

/- Observable side effects of one handler run, in chronological order.
   Each constructor marks the point where the corresponding external call
   is issued, whether or not that call then succeeds. -/
inductive Effect where
  | dbGet (userId : String)
  | upstreamCall
  | logWrite (rec : TransactionRec)
  | deductAttempt (userId : String) (amount : Option ℚ)
deriving DecidableEq

/- Body of the HTTP-shaped result: either the error shape
   `{message, error}` or the upstream response passed through. -/
inductive Body where
  | errBody (message : String) (error : String)
  | okBody (response : CompletionResponse)
deriving DecidableEq

structure HTTPResult where
  statusCode : ℕ
  body : Body
deriving DecidableEq

/- `returnHTTP` of src/index.js lines 147-155 (with its default error ""). -/
def returnHTTP (statusCode : ℕ) (message : String) : HTTPResult :=
  { statusCode := statusCode, body := Body.errBody message ("") }

/- The top-level catch block of the handler (src/index.js lines 50-59). -/
def catchAll (e : String) : HTTPResult :=
  { statusCode := 401, body := Body.errBody ("Token is invalid") e }

/- `event.headers.authorization.split(' ')[1]`: element 1 of the split,
   absent (undefined) when the header has no second space-separated part. -/
def accessTokenOf (h : String) : Option String :=
  (h.splitOn (" ")).get? 1

/- The environment one handler run executes in: the outcome of each
   external call the run would make.  `tokenInfo` is the identity
   provider's answer for the extracted access token; the remaining fields
   are the outcomes of the DynamoDB get, the upstream HTTPS request, the
   DynamoDB put of the transaction record, and the DynamoDB balance
   update.  `Except.error e` models the call throwing with message `e`.
   `duration` is the observed wall-clock duration in seconds. -/
structure Env where
  authorization : Option String
  tokenInfo : Option String → Except String TokenInfo
  dbUser : Except String DBGetResult
  upstream : Except String CompletionResponse
  logResult : Except String Unit
  deductResult : Except String ℚ
  duration : ℚ

/- The error message of the TypeError thrown by
   `event.headers.authorization.split` when the header is absent. -/
def splitOnUndefinedMsg : String :=
  "Cannot read properties of undefined (reading 'split')"

/- The `handler` of src/index.js lines 12-60, returning the HTTP-shaped
   result together with the chronological trace of external effects.
   Every thrown error is caught by the top-level catch and mapped through
   `catchAll`. -/
def handler (clientId : String) (env : Env) : HTTPResult × List Effect :=
  match env.authorization with
  | none => (catchAll splitOnUndefinedMsg, [])
  | some h =>
    match env.tokenInfo (accessTokenOf h) with
    | Except.error e => (catchAll e, [])
    | Except.ok idToken =>
      if idToken.aud ≠ clientId then
        (returnHTTP 401 ("Access token is not intended for this client"), [])
      else
        match env.dbUser with
        | Except.error e => (catchAll e, [Effect.dbGet idToken.email])
        | Except.ok dbUser =>
          match dbUser.Item with
          | none =>
            (returnHTTP 401 ("User does not exist"), [Effect.dbGet idToken.email])
          | some item =>
            if jsLtZero item.Balance then
              (returnHTTP 402 ("User has insufficient balance"),
               [Effect.dbGet idToken.email])
            else
              match env.upstream with
              | Except.error e =>
                (catchAll e, [Effect.dbGet idToken.email, Effect.upstreamCall])
              | Except.ok response =>
                let transaction : TransactionRec :=
                  { userId := idToken.email
                    model := response.model
                    reqTokens := response.usage.bind Usage.prompt_tokens
                    resTokens := response.usage.bind Usage.completion_tokens
                    duration := env.duration }
                match env.logResult with
                | Except.error e =>
                  (catchAll e,
                   [Effect.dbGet idToken.email, Effect.upstreamCall,
                    Effect.logWrite transaction])
                | Except.ok _ =>
                  let transactionPrice := getTransactionPrice response
                  match env.deductResult with
                  | Except.error e =>
                    (catchAll e,
                     [Effect.dbGet idToken.email, Effect.upstreamCall,
                      Effect.logWrite transaction,
                      Effect.deductAttempt idToken.email transactionPrice])
                  | Except.ok _ =>
                    ({ statusCode := 200, body := Body.okBody response },
                     [Effect.dbGet idToken.email, Effect.upstreamCall,
                      Effect.logWrite transaction,
                      Effect.deductAttempt idToken.email transactionPrice])

/- Recognizers for the three billing-relevant effect kinds. -/
def isLogWrite : Effect → Bool
  | Effect.dbGet _ => false
  | Effect.upstreamCall => false
  | Effect.logWrite _ => true
  | Effect.deductAttempt _ _ => false

def isDeduct : Effect → Bool
  | Effect.dbGet _ => false
  | Effect.upstreamCall => false
  | Effect.logWrite _ => false
  | Effect.deductAttempt _ _ => true

def isUpstream : Effect → Bool
  | Effect.dbGet _ => false
  | Effect.upstreamCall => true
  | Effect.logWrite _ => false
  | Effect.deductAttempt _ _ => false

/- Number of transaction-record writes in a trace. -/
def countLog (tr : List Effect) : ℕ :=
  tr.countP isLogWrite

/- Number of ledger-deduction attempts in a trace. -/
def countDeduct (tr : List Effect) : ℕ :=
  tr.countP isDeduct

/- Number of upstream-call attempts in a trace. -/
def countUpstream (tr : List Effect) : ℕ :=
  tr.countP isUpstream

/- State of the UserAccountData table: the Balance attribute per UserID
   key, `none` when the key has no item (or the item has no Balance). -/
def Store : Type := String → Option ℚ

/- `deductUserBalance` of src/index.js lines 123-144 as its effect on the
   store: the single DynamoDB update with UpdateExpression
   `set Balance = Balance - :amount` is one atomic server-side decrement,
   so its whole semantics is one step on the store state.  When the key
   has no Balance to decrement, DynamoDB rejects the update and the
   function rethrows the error; on success it yields the new store and
   the returned updated Balance. -/
def deductUserBalance (userId : String) (amountToDeduct : ℚ) (s : Store) :
    Except String (Store × ℚ) :=
  match s userId with
  | none =>
    Except.error ("The provided expression refers to an attribute that does not exist")
  | some b =>
    Except.ok (fun u => if u = userId then some (b - amountToDeduct) else s u,
               b - amountToDeduct)

/- The balance of `userId` after two deductions applied one after the
   other (one serialization of two concurrent calls, each of which is a
   single atomic store operation). -/
def balanceAfterTwo (userId : String) (a1 a2 : ℚ) (s : Store) :
    Except String (Option ℚ) :=
  match deductUserBalance userId a1 s with
  | Except.error e => Except.error e
  | Except.ok (s1, _) =>
    match deductUserBalance userId a2 s1 with
    | Except.error e => Except.error e
    | Except.ok (s2, _) => Except.ok (s2 userId)

/- `x || 0` returns the number itself when it is an actual number. -/
theorem jsOrZero_some (v : ℚ) : jsOrZero (some v) = v := by
  by_cases h : v = 0 <;> simp [jsOrZero, h]

/- Table lookups evaluated at the names the claims use. -/
theorem modelPrice_gpt4 :
    modelPrice ("gpt-4") = some { input := 0.03, c_input := none, output := 0.06 } := by
  rfl

theorem modelPrice_unknown : modelPrice ("unknown-model") = none := by
  rfl

/- The pricing formula, for a response whose usage block carries both
   token counts. -/
theorem price_formula (m : Option String) (p c : ℚ) :
    getTransactionPrice
      { model := m,
        usage := some { prompt_tokens := some p, completion_tokens := some c } }
      = some ((p / 1000) * inputRate m + (c / 1000) * outputRate m + 0.00000213) := by
  cases h : m.bind modelPrice with
  | none =>
    simp [getTransactionPrice, jsMul, jsDiv, jsAdd, jsOrZero, inputRate, outputRate, h]
  | some e =>
    simp [getTransactionPrice, jsMul, jsDiv, jsAdd, jsOrZero_some, inputRate,
      outputRate, h]

/-- C1: for every completion response carrying both token counts, the
computed price is (prompt_tokens/1000)*inputRate +
(completion_tokens/1000)*outputRate + 0.00000213, where a model name
absent from the pricing table yields inputRate = outputRate = 0; price
of (gpt-4, 1000, 1000) is 0.09000213 and of (unknown-model, 500, 500) is
0.00000213; and the price depends only on (model, prompt_tokens,
completion_tokens), i.e. the function is pure and deterministic. -/
theorem claim_C1_price_formula :
    (∀ (m : Option String) (p c : ℚ),
      getTransactionPrice
        { model := m,
          usage := some { prompt_tokens := some p, completion_tokens := some c } }
        = some ((p / 1000) * inputRate m + (c / 1000) * outputRate m + 0.00000213))
    ∧ (∀ m : Option String, m.bind modelPrice = none →
        inputRate m = 0 ∧ outputRate m = 0)
    ∧ getTransactionPrice
        { model := some ("gpt-4"),
          usage := some { prompt_tokens := some 1000, completion_tokens := some 1000 } }
        = some 0.09000213
    ∧ getTransactionPrice
        { model := some ("unknown-model"),
          usage := some { prompt_tokens := some 500, completion_tokens := some 500 } }
        = some 0.00000213
    ∧ (∀ (r1 r2 : CompletionResponse), r1.model = r2.model → r1.usage = r2.usage →
        getTransactionPrice r1 = getTransactionPrice r2) := by
  refine ⟨price_formula, ?_, ?_, ?_, ?_⟩
  · intro m h
    simp [inputRate, outputRate, h]
  · norm_num [getTransactionPrice, jsAdd, jsMul, jsDiv, jsOrZero, modelPrice_gpt4]
  · norm_num [getTransactionPrice, jsAdd, jsMul, jsDiv, jsOrZero, modelPrice_unknown]
  · intro r1 r2 hm hu
    cases r1
    cases r2
    simp only at hm hu
    simp [hm, hu]

/-- C1 witness: the hypothesis-bearing conjuncts instantiated at the
concrete model name unknown-model and at two concrete equal responses. -/
theorem claim_C1_price_formula_witness :
    (inputRate (some ("unknown-model")) = 0 ∧ outputRate (some ("unknown-model")) = 0)
    ∧ getTransactionPrice { model := some ("gpt-4"), usage := none }
        = getTransactionPrice { model := some ("gpt-4"), usage := none } :=
  ⟨claim_C1_price_formula.2.1 (some ("unknown-model")) (by rfl),
   claim_C1_price_formula.2.2.2.2
     { model := some ("gpt-4"), usage := none }
     { model := some ("gpt-4"), usage := none } rfl rfl⟩

/-- C7: the claim says a missing usage block is treated as zero tokens so
the price reduces to the fixed surcharge 0.00000213 alone.  The code
instead computes `undefined / 1000`, which is NaN, and NaN propagates
through the whole sum (`none` in this embedding), so the computed price
is NaN, not the surcharge: the code contradicts the spec's stated intent
of graceful zero-token defaulting. -/
theorem claim_C7_missing_usage_is_NaN :
    getTransactionPrice { model := some ("gpt-4"), usage := none } = none
    ∧ getTransactionPrice { model := some ("gpt-4"), usage := none }
        ≠ some 0.00000213
    ∧ getTransactionPrice
        { model := some ("gpt-4"),
          usage := some { prompt_tokens := none, completion_tokens := none } }
        = none := by
  refine ⟨by simp [getTransactionPrice, jsAdd, jsMul, jsDiv], ?_,
    by simp [getTransactionPrice, jsAdd, jsMul, jsDiv]⟩
  intro h
  simp [getTransactionPrice, jsAdd, jsMul, jsDiv] at h

/- Concrete data used to evaluate the pipeline at specific inputs. -/
def tiOK : TokenInfo :=
  { aud := "client-1", email := "alice@example.com" }

def respOK : CompletionResponse :=
  { model := some ("gpt-3.5-turbo"),
    usage := some { prompt_tokens := some 100, completion_tokens := some 50 } }

/- An environment in which authentication, admission and the upstream
   call all succeed but the transaction-log write throws. -/
def envLogFail : Env :=
  { authorization := some ("Bearer tok-1"),
    tokenInfo := fun _ => Except.ok tiOK,
    dbUser := Except.ok { Item := some { Balance := some 10 } },
    upstream := Except.ok respOK,
    logResult := Except.error ("one or more parameter values were invalid"),
    deductResult := Except.ok 0,
    duration := 1 }

/-- C2 counterexample: in a run whose upstream invocation succeeds but
whose transaction-log write throws, the log write is attempted (one
logWrite effect) yet NO ledger deduction is ever attempted — the thrown
log error short-circuits to the catch block — so the claim's "exactly
one ledger deduction is attempted" fails for such a call. -/
theorem claim_C2_counterexample :
    countUpstream (handler ("client-1") envLogFail).2 = 1
    ∧ countLog (handler ("client-1") envLogFail).2 = 1
    ∧ countDeduct (handler ("client-1") envLogFail).2 = 0 := by
  norm_num [handler, envLogFail, tiOK, respOK, jsLtZero, countUpstream, countLog,
    countDeduct, isUpstream, isLogWrite, isDeduct, List.countP_cons, List.countP_nil]

/-- C2 (amended): for every call whose upstream invocation succeeds,
exactly one transaction-record write is attempted; when that write
succeeds, exactly one ledger deduction is attempted and it comes after
the log write (even if the deduction then fails); when the log write
itself fails, no deduction is attempted. -/
theorem claim_C2_log_before_deduct (cid : String) (env : Env) (a : String)
    (ti : TokenInfo) (item : AccountItem) (response : CompletionResponse)
    (h1 : env.authorization = some a)
    (h2 : env.tokenInfo (accessTokenOf a) = Except.ok ti)
    (h3 : ti.aud = cid)
    (h4 : env.dbUser = Except.ok { Item := some item })
    (h5 : jsLtZero item.Balance = false)
    (h6 : env.upstream = Except.ok response) :
    (handler cid env).2
      = [Effect.dbGet ti.email, Effect.upstreamCall,
         Effect.logWrite
           { userId := ti.email, model := response.model,
             reqTokens := response.usage.bind Usage.prompt_tokens,
             resTokens := response.usage.bind Usage.completion_tokens,
             duration := env.duration }]
        ++ (match env.logResult with
            | Except.ok _ =>
              [Effect.deductAttempt ti.email (getTransactionPrice response)]
            | Except.error _ => [])
    ∧ countLog (handler cid env).2 = 1
    ∧ (∀ u, env.logResult = Except.ok u → countDeduct (handler cid env).2 = 1)
    ∧ (∀ e, env.logResult = Except.error e → countDeduct (handler cid env).2 = 0) := by
  cases hlog : env.logResult with
  | error e =>
    refine ⟨by simp [handler, h1, h2, h3, h4, h5, h6, hlog], ?_, ?_, ?_⟩
    · simp [handler, h1, h2, h3, h4, h5, h6, hlog, countLog, isLogWrite,
        List.countP_cons, List.countP_nil]
    · intro u hu
      exact absurd hu (by simp)
    · intro e2 _
      simp [handler, h1, h2, h3, h4, h5, h6, hlog, countDeduct, isDeduct,
        List.countP_cons, List.countP_nil]
  | ok u =>
    cases hded : env.deductResult with
    | error e =>
      refine ⟨by simp [handler, h1, h2, h3, h4, h5, h6, hlog, hded], ?_, ?_, ?_⟩
      · simp [handler, h1, h2, h3, h4, h5, h6, hlog, hded, countLog, isLogWrite,
          List.countP_cons, List.countP_nil]
      · intro u2 _
        simp [handler, h1, h2, h3, h4, h5, h6, hlog, hded, countDeduct, isDeduct,
          List.countP_cons, List.countP_nil]
      · intro e2 he
        exact absurd he (by simp)
    | ok nb =>
      refine ⟨by simp [handler, h1, h2, h3, h4, h5, h6, hlog, hded], ?_, ?_, ?_⟩
      · simp [handler, h1, h2, h3, h4, h5, h6, hlog, hded, countLog, isLogWrite,
          List.countP_cons, List.countP_nil]
      · intro u2 _
        simp [handler, h1, h2, h3, h4, h5, h6, hlog, hded, countDeduct, isDeduct,
          List.countP_cons, List.countP_nil]
      · intro e2 he
        exact absurd he (by simp)

/- An environment in which every stage succeeds. -/
def envAllOK : Env :=
  { authorization := some ("Bearer tok-1"),
    tokenInfo := fun _ => Except.ok tiOK,
    dbUser := Except.ok { Item := some { Balance := some 10 } },
    upstream := Except.ok respOK,
    logResult := Except.ok (),
    deductResult := Except.ok 0,
    duration := 1 }

/-- C2 witness: the amended theorem instantiated at a concrete
all-successful environment. -/
theorem claim_C2_log_before_deduct_witness :
    (handler ("client-1") envAllOK).2
      = [Effect.dbGet tiOK.email, Effect.upstreamCall,
         Effect.logWrite
           { userId := tiOK.email, model := respOK.model,
             reqTokens := respOK.usage.bind Usage.prompt_tokens,
             resTokens := respOK.usage.bind Usage.completion_tokens,
             duration := envAllOK.duration }]
        ++ (match envAllOK.logResult with
            | Except.ok _ =>
              [Effect.deductAttempt tiOK.email (getTransactionPrice respOK)]
            | Except.error _ => [])
    ∧ countLog (handler ("client-1") envAllOK).2 = 1
    ∧ (∀ u, envAllOK.logResult = Except.ok u →
        countDeduct (handler ("client-1") envAllOK).2 = 1)
    ∧ (∀ e, envAllOK.logResult = Except.error e →
        countDeduct (handler ("client-1") envAllOK).2 = 0) :=
  claim_C2_log_before_deduct ("client-1") envAllOK ("Bearer tok-1") tiOK
    { Balance := some 10 } respOK rfl rfl rfl rfl (by norm_num [jsLtZero]) rfl

/-- C4: for every authenticated subject whose account record exists with
balance < 0, the call is rejected with statusCode 402, and the trace
holds only the account read: no upstream call, no transaction-log write
and no ledger mutation happen for that call. -/
theorem claim_C4_negative_balance_402 (cid : String) (env : Env) (a : String)
    (ti : TokenInfo) (item : AccountItem) (b : ℚ)
    (h1 : env.authorization = some a)
    (h2 : env.tokenInfo (accessTokenOf a) = Except.ok ti)
    (h3 : ti.aud = cid)
    (h4 : env.dbUser = Except.ok { Item := some item })
    (hb : item.Balance = some b)
    (hneg : b < 0) :
    handler cid env
      = (returnHTTP 402 ("User has insufficient balance"), [Effect.dbGet ti.email]) := by
  simp [handler, h1, h2, h3, h4, jsLtZero, hb, hneg]

/- An admissible call whose subject holds a negative balance. -/
def envNegBal : Env :=
  { authorization := some ("Bearer tok-1"),
    tokenInfo := fun _ => Except.ok tiOK,
    dbUser := Except.ok { Item := some { Balance := some (-1) } },
    upstream := Except.ok respOK,
    logResult := Except.ok (),
    deductResult := Except.ok 0,
    duration := 1 }

/-- C4 witness: the theorem instantiated at a concrete environment whose
account balance is -1. -/
theorem claim_C4_negative_balance_402_witness :
    handler ("client-1") envNegBal
      = (returnHTTP 402 ("User has insufficient balance"),
         [Effect.dbGet tiOK.email]) :=
  claim_C4_negative_balance_402 ("client-1") envNegBal ("Bearer tok-1") tiOK
    { Balance := some (-1) } (-1) rfl rfl rfl rfl rfl (by norm_num)

/-- C5: for every authenticated subject with no account record in the
ledger store, the call is rejected with statusCode 401, and the trace
holds only the account read: no upstream call, no transaction-log write
and no ledger mutation happen for that call. -/
theorem claim_C5_no_account_401 (cid : String) (env : Env) (a : String)
    (ti : TokenInfo)
    (h1 : env.authorization = some a)
    (h2 : env.tokenInfo (accessTokenOf a) = Except.ok ti)
    (h3 : ti.aud = cid)
    (h4 : env.dbUser = Except.ok { Item := none }) :
    handler cid env
      = (returnHTTP 401 ("User does not exist"), [Effect.dbGet ti.email]) := by
  simp [handler, h1, h2, h3, h4]

/- A call whose subject has no record in the UserAccountData table. -/
def envNoUser : Env :=
  { authorization := some ("Bearer tok-1"),
    tokenInfo := fun _ => Except.ok tiOK,
    dbUser := Except.ok { Item := none },
    upstream := Except.ok respOK,
    logResult := Except.ok (),
    deductResult := Except.ok 0,
    duration := 1 }

/-- C5 witness: the theorem instantiated at a concrete environment with
no account record. -/
theorem claim_C5_no_account_401_witness :
    handler ("client-1") envNoUser
      = (returnHTTP 401 ("User does not exist"), [Effect.dbGet tiOK.email]) :=
  claim_C5_no_account_401 ("client-1") envNoUser ("Bearer tok-1") tiOK
    rfl rfl rfl rfl

/-- C6: for every inbound call whose verified token's audience differs
from the configured client identifier, the call is rejected with
statusCode 401 and an empty effect trace: no account read, no upstream
call, no transaction-log write and no ledger mutation happen. -/
theorem claim_C6_audience_mismatch_401 (cid : String) (env : Env) (a : String)
    (ti : TokenInfo)
    (h1 : env.authorization = some a)
    (h2 : env.tokenInfo (accessTokenOf a) = Except.ok ti)
    (h3 : ti.aud ≠ cid) :
    handler cid env
      = (returnHTTP 401 ("Access token is not intended for this client"), []) := by
  simp [handler, h1, h2, h3]

/- A verified token issued for a different client identifier. -/
def tiBadAud : TokenInfo :=
  { aud := "other-client", email := "alice@example.com" }

def envBadAud : Env :=
  { authorization := some ("Bearer tok-1"),
    tokenInfo := fun _ => Except.ok tiBadAud,
    dbUser := Except.ok { Item := some { Balance := some 10 } },
    upstream := Except.ok respOK,
    logResult := Except.ok (),
    deductResult := Except.ok 0,
    duration := 1 }

/-- C6 witness: the theorem instantiated at a concrete environment whose
token audience is other-client while the service expects client-1. -/
theorem claim_C6_audience_mismatch_401_witness :
    handler ("client-1") envBadAud
      = (returnHTTP 401 ("Access token is not intended for this client"), []) :=
  claim_C6_audience_mismatch_401 ("client-1") envBadAud ("Bearer tok-1") tiBadAud
    rfl rfl (by decide)

/-- C8: for every call in which authentication, admission, the upstream
invocation, the log write and the deduction all succeed, the handler
returns statusCode 200 and the body is the upstream response passed
through unmodified. -/
theorem claim_C8_success_passthrough (cid : String) (env : Env) (a : String)
    (ti : TokenInfo) (item : AccountItem) (response : CompletionResponse)
    (u : Unit) (nb : ℚ)
    (h1 : env.authorization = some a)
    (h2 : env.tokenInfo (accessTokenOf a) = Except.ok ti)
    (h3 : ti.aud = cid)
    (h4 : env.dbUser = Except.ok { Item := some item })
    (h5 : jsLtZero item.Balance = false)
    (h6 : env.upstream = Except.ok response)
    (h7 : env.logResult = Except.ok u)
    (h8 : env.deductResult = Except.ok nb) :
    (handler cid env).1 = { statusCode := 200, body := Body.okBody response } := by
  simp [handler, h1, h2, h3, h4, h5, h6, h7, h8]

/-- C8 witness: the theorem instantiated at a concrete all-successful
environment; the returned body is exactly the upstream response. -/
theorem claim_C8_success_passthrough_witness :
    (handler ("client-1") envAllOK).1
      = { statusCode := 200, body := Body.okBody respOK } :=
  claim_C8_success_passthrough ("client-1") envAllOK ("Bearer tok-1") tiOK
    { Balance := some 10 } respOK () 0 rfl rfl rfl rfl (by norm_num [jsLtZero])
    rfl rfl rfl

/- A failure that is not one of the three explicit guard rejections
   (audience mismatch, missing account, negative balance): the missing
   authorization header, a getTokenInfo failure, a thrown account read, a
   failed upstream call, a failed log write, or a failed deduction, each
   reached with every earlier stage succeeding; `e` is the failure's
   message. -/
def nonGuardFailure (clientId : String) (env : Env) (e : String) : Prop :=
  (env.authorization = none ∧ e = splitOnUndefinedMsg)
  ∨ (∃ a, env.authorization = some a
      ∧ env.tokenInfo (accessTokenOf a) = Except.error e)
  ∨ (∃ a ti, env.authorization = some a
      ∧ env.tokenInfo (accessTokenOf a) = Except.ok ti ∧ ti.aud = clientId
      ∧ env.dbUser = Except.error e)
  ∨ (∃ a ti item, env.authorization = some a
      ∧ env.tokenInfo (accessTokenOf a) = Except.ok ti ∧ ti.aud = clientId
      ∧ env.dbUser = Except.ok { Item := some item }
      ∧ jsLtZero item.Balance = false
      ∧ env.upstream = Except.error e)
  ∨ (∃ a ti item response, env.authorization = some a
      ∧ env.tokenInfo (accessTokenOf a) = Except.ok ti ∧ ti.aud = clientId
      ∧ env.dbUser = Except.ok { Item := some item }
      ∧ jsLtZero item.Balance = false
      ∧ env.upstream = Except.ok response
      ∧ env.logResult = Except.error e)
  ∨ (∃ a ti item response u, env.authorization = some a
      ∧ env.tokenInfo (accessTokenOf a) = Except.ok ti ∧ ti.aud = clientId
      ∧ env.dbUser = Except.ok { Item := some item }
      ∧ jsLtZero item.Balance = false
      ∧ env.upstream = Except.ok response
      ∧ env.logResult = Except.ok u
      ∧ env.deductResult = Except.error e)

/-- C3: every exception raised anywhere in the pipeline that is not one
of the explicit guard rejections — missing header, token-verification
failure, account-read failure, upstream failure, log-write failure,
deduct failure — is mapped by the top-level catch to statusCode 401 with
body {message: Token is invalid, error: the failure's description}. -/
theorem claim_C3_catch_all_401 (clientId : String) (env : Env) (e : String)
    (hf : nonGuardFailure clientId env e) :
    (handler clientId env).1 = catchAll e := by
  rcases hf with ⟨ha, he⟩
    | ⟨a, ha, ht⟩
    | ⟨a, ti, ha, ht, haud, hdb⟩
    | ⟨a, ti, item, ha, ht, haud, hdb, hbal, hup⟩
    | ⟨a, ti, item, response, ha, ht, haud, hdb, hbal, hup, hlog⟩
    | ⟨a, ti, item, response, u, ha, ht, haud, hdb, hbal, hup, hlog, hded⟩
  · simp [handler, ha, he]
  · simp [handler, ha, ht]
  · simp [handler, ha, ht, haud, hdb]
  · simp [handler, ha, ht, haud, hdb, hbal, hup]
  · simp [handler, ha, ht, haud, hdb, hbal, hup, hlog]
  · simp [handler, ha, ht, haud, hdb, hbal, hup, hlog, hded]

/- An admissible call whose upstream request fails with a non-2xx
   status: the thrown error's message as built in makeOpenAIRequest. -/
def envUpstreamFail : Env :=
  { authorization := some ("Bearer tok-1"),
    tokenInfo := fun _ => Except.ok tiOK,
    dbUser := Except.ok { Item := some { Balance := some 10 } },
    upstream := Except.error ("Request failed with status code 500: oops"),
    logResult := Except.ok (),
    deductResult := Except.ok 0,
    duration := 1 }

/-- C3 witness: an upstream non-2xx failure in a concrete, otherwise
successful environment is answered with the 401 catch-all carrying the
upstream error's description. -/
theorem claim_C3_catch_all_401_witness :
    (handler ("client-1") envUpstreamFail).1
      = catchAll ("Request failed with status code 500: oops") :=
  claim_C3_catch_all_401 ("client-1") envUpstreamFail
    ("Request failed with status code 500: oops")
    (Or.inr (Or.inr (Or.inr (Or.inl
      ⟨"Bearer tok-1", tiOK, { Balance := some 10 }, rfl, rfl, rfl, rfl,
       by norm_num [jsLtZero], rfl⟩))))

/-- C9: the balance deduction is a single atomic store-side decrement
(DynamoDB UpdateExpression set Balance = Balance - amount), so for two
concurrent deductions against the same subject, either serialization of
the two atomic operations yields the balance obtained by applying the
two decrements sequentially — no lost updates. -/
theorem claim_C9_no_lost_updates (s : Store) (uid : String) (b a1 a2 : ℚ)
    (h : s uid = some b) :
    balanceAfterTwo uid a1 a2 s = Except.ok (some (b - (a1 + a2)))
    ∧ balanceAfterTwo uid a2 a1 s = Except.ok (some (b - (a1 + a2))) := by
  constructor <;>
    simp [balanceAfterTwo, deductUserBalance, h, sub_sub, add_comm]

/- A one-user store holding balance 10 for key u. -/
def storeTen : Store :=
  fun _ => some 10

/-- C9 witness: deducting 1 and 2 from a balance of 10, in either order,
leaves 10 - (1 + 2). -/
theorem claim_C9_no_lost_updates_witness :
    balanceAfterTwo ("u") 1 2 storeTen = Except.ok (some (10 - (1 + 2)))
    ∧ balanceAfterTwo ("u") 2 1 storeTen = Except.ok (some (10 - (1 + 2))) :=
  claim_C9_no_lost_updates storeTen ("u") 10 1 2 rfl

/-- C10: for every authenticated subject whose account record exists,
the 402 rejection happens exactly when the Balance value is a number
comparing less than 0; an account record whose Balance attribute is
absent (undefined, so undefined < 0 is false in JS) passes the admission
check and the call proceeds to the upstream invocation. -/
theorem claim_C10_admission_iff_negative (cid : String) (env : Env) (a : String)
    (ti : TokenInfo) (item : AccountItem)
    (h1 : env.authorization = some a)
    (h2 : env.tokenInfo (accessTokenOf a) = Except.ok ti)
    (h3 : ti.aud = cid)
    (h4 : env.dbUser = Except.ok { Item := some item }) :
    ((handler cid env).1.statusCode = 402 ↔ (∃ b, item.Balance = some b ∧ b < 0))
    ∧ (item.Balance = none → countUpstream (handler cid env).2 = 1) := by
  by_cases hb : jsLtZero item.Balance = true
  · have hex : ∃ b, item.Balance = some b ∧ b < 0 := by
      cases hBal : item.Balance with
      | none => rw [hBal] at hb; simp [jsLtZero] at hb
      | some b =>
        rw [hBal] at hb
        simp [jsLtZero] at hb
        exact ⟨b, rfl, hb⟩
    refine ⟨⟨fun _ => hex, fun _ => ?_⟩, fun hnone => ?_⟩
    · simp [handler, h1, h2, h3, h4, hb, returnHTTP]
    · rw [hnone] at hb
      simp [jsLtZero] at hb
  · have hb' : jsLtZero item.Balance = false := by
      simpa using hb
    have hnotex : ¬ ∃ b, item.Balance = some b ∧ b < 0 := by
      rintro ⟨b, hBal, hneg⟩
      rw [hBal] at hb'
      simp [jsLtZero, hneg] at hb'
    refine ⟨⟨fun h402 => ?_, fun hex => absurd hex hnotex⟩, fun hnone => ?_⟩
    · exfalso
      cases hup : env.upstream with
      | error e =>
        simp [handler, h1, h2, h3, h4, hb', hup, catchAll] at h402
      | ok response =>
        cases hlog : env.logResult with
        | error e =>
          simp [handler, h1, h2, h3, h4, hb', hup, hlog, catchAll] at h402
        | ok u =>
          cases hded : env.deductResult with
          | error e =>
            simp [handler, h1, h2, h3, h4, hb', hup, hlog, hded, catchAll] at h402
          | ok nb =>
            simp [handler, h1, h2, h3, h4, hb', hup, hlog, hded] at h402
    · cases hup : env.upstream with
      | error e =>
        simp [handler, h1, h2, h3, h4, hb', hup, countUpstream, isUpstream,
          List.countP_cons, List.countP_nil]
      | ok response =>
        cases hlog : env.logResult with
        | error e =>
          simp [handler, h1, h2, h3, h4, hb', hup, hlog, countUpstream, isUpstream,
            List.countP_cons, List.countP_nil]
        | ok u =>
          cases hded : env.deductResult with
          | error e =>
            simp [handler, h1, h2, h3, h4, hb', hup, hlog, hded, countUpstream,
              isUpstream, List.countP_cons, List.countP_nil]
          | ok nb =>
            simp [handler, h1, h2, h3, h4, hb', hup, hlog, hded, countUpstream,
              isUpstream, List.countP_cons, List.countP_nil]

/- An account record present in the table but with no Balance attribute. -/
def envNoBalanceAttr : Env :=
  { authorization := some ("Bearer tok-1"),
    tokenInfo := fun _ => Except.ok tiOK,
    dbUser := Except.ok { Item := some { Balance := none } },
    upstream := Except.ok respOK,
    logResult := Except.ok (),
    deductResult := Except.ok 0,
    duration := 1 }

/-- C10 witness: with a concrete account record whose Balance attribute
is absent, the call is not rejected with 402 and the upstream call is
made. -/
theorem claim_C10_admission_iff_negative_witness :
    ((handler ("client-1") envNoBalanceAttr).1.statusCode = 402
      ↔ (∃ b, ({ Balance := none } : AccountItem).Balance = some b ∧ b < 0))
    ∧ (({ Balance := none } : AccountItem).Balance = none →
        countUpstream (handler ("client-1") envNoBalanceAttr).2 = 1) :=
  claim_C10_admission_iff_negative ("client-1") envNoBalanceAttr ("Bearer tok-1")
    tiOK { Balance := none } rfl rfl rfl rfl

end OpenAIBackend
